import Mathlib

/-!
Formal model of the TechCommerce data-governance core
(`src/correcao_automatica.py` and `src/sistema_alertas.py`).

Modelling conventions (shallow embedding):
* pandas string cells are lists of Unicode codepoints (`Str := List Nat`);
  a missing value (NaN) is `none` in an `Option`.
* pandas timestamps are integers in `yyyymmdd` form; `pd.to_datetime` on a
  value that the data model already declares to be a timestamp is the
  identity, and `NaT` is `none`.  The year of a timestamp is division by
  10000.
* `datetime.now()` / `datetime.now().year` are explicit parameters
  (`now`, `current_year`) threaded into the functions that read the clock.
* Python string methods (`lower`, `upper`, `strip`, `title`, `replace`,
  `re.sub(r"\D", "", …)`) are modelled character by character with ASCII
  case semantics.
* Monetary values are exact rationals.
* The spec names string constants in English where the source uses
  Portuguese; the embedding keeps the source's literals
  (status `"ABERTO"` = OPEN, placeholder `"Cliente {id}"` = "Customer {id}",
  status `"Cancelada"` = Cancelled, `"Sem Categoria"` = Uncategorized).
-/

namespace TechCommerce

/-- Strings as lists of Unicode codepoints. -/
abbrev Str := List Nat

/-- Turn a Lean string literal into its codepoint list. -/
def str (s : String) : Str := s.data.map Char.toNat

/-- Python `str.isspace` for the whitespace characters `strip` removes. -/
def isSpaceCp (n : Nat) : Bool :=
  decide (n = 32 ∨ n = 9 ∨ n = 10 ∨ n = 11 ∨ n = 12 ∨ n = 13)

/-- ASCII uppercase letter. -/
def isUpperCp (n : Nat) : Bool := decide (65 ≤ n ∧ n ≤ 90)

/-- ASCII lowercase letter. -/
def isLowerCp (n : Nat) : Bool := decide (97 ≤ n ∧ n ≤ 122)

/-- ASCII letter (the "cased" characters of the model). -/
def isCasedCp (n : Nat) : Bool := isUpperCp n || isLowerCp n

/-- ASCII digit, the `\d` class of `re.sub(r"\D", "", x)`. -/
def isDigitCp (n : Nat) : Bool := decide (48 ≤ n ∧ n ≤ 57)

/-- Python `str.lower` on one character. -/
def toLowerCp (n : Nat) : Nat := if isUpperCp n then n + 32 else n

/-- Python `str.upper` on one character. -/
def toUpperCp (n : Nat) : Nat := if isLowerCp n then n - 32 else n

/-- Python `str.lower`. -/
def lowerStr (l : Str) : Str := l.map toLowerCp

/-- Python `str.upper`. -/
def upperStr (l : Str) : Str := l.map toUpperCp

/-- Left part of Python `str.strip`. -/
def stripL (l : Str) : Str := l.dropWhile isSpaceCp

/-- Right part of Python `str.strip`. -/
def rstripL (l : Str) : Str := (l.reverse.dropWhile isSpaceCp).reverse

/-- Python `str.strip`: drop leading and trailing whitespace. -/
def pyStrip (l : Str) : Str := rstripL (stripL l)

/-- One character of Python `str.title`: `prev` says whether the previous
character was cased. -/
def titleChar (prev : Bool) (n : Nat) : Nat :=
  if isCasedCp n then (if prev then toLowerCp n else toUpperCp n) else n

/-- Python `str.title`, parametrised by whether the preceding character was
cased. -/
def pyTitleAux : Str → Bool → Str
  | [], _ => []
  | c :: t, prev => titleChar prev c :: pyTitleAux t (isCasedCp c)

/-- Python `str.title`. -/
def pyTitle (l : Str) : Str := pyTitleAux l false

/-- Casedness of the last character of `l` (or `b` when `l` is empty):
the state `pyTitleAux` is in after consuming `l`. -/
def afterCased (l : Str) (b : Bool) : Bool := l.foldl (fun _ c => isCasedCp c) b

/-- The pandas idiom `.str.title().str.strip()`. -/
def titleStrip (l : Str) : Str := pyStrip (pyTitle l)

/-- The pandas idiom `.str.upper().str.strip()`. -/
def upperStrip (l : Str) : Str := pyStrip (upperStr l)

/-- The pandas idiom `.str.lower().str.strip()`. -/
def lowerStrip (l : Str) : Str := pyStrip (lowerStr l)

/-- Python `re.sub(r"\D", "", x)`: keep only the digits. -/
def digitsOnly (l : Str) : Str := l.filter isDigitCp

/-! ### Character-level lemmas -/

theorem isUpperCp_iff {n : Nat} : isUpperCp n = true ↔ 65 ≤ n ∧ n ≤ 90 := by
  simp [isUpperCp]

theorem isLowerCp_iff {n : Nat} : isLowerCp n = true ↔ 97 ≤ n ∧ n ≤ 122 := by
  simp [isLowerCp]

theorem isSpaceCp_iff {n : Nat} :
    isSpaceCp n = true ↔ n = 32 ∨ n = 9 ∨ n = 10 ∨ n = 11 ∨ n = 12 ∨ n = 13 := by
  simp [isSpaceCp]

theorem isCasedCp_iff {n : Nat} :
    isCasedCp n = true ↔ (65 ≤ n ∧ n ≤ 90) ∨ (97 ≤ n ∧ n ≤ 122) := by
  simp [isCasedCp, isUpperCp, isLowerCp]

theorem bool_eq_of_iff {a b : Bool} (h : a = true ↔ b = true) : a = b := by
  cases a <;> cases b <;> simp_all

theorem toLowerCp_toLowerCp (n : Nat) : toLowerCp (toLowerCp n) = toLowerCp n := by
  by_cases h : isUpperCp n = true
  · have hn := isUpperCp_iff.mp h
    have h32 : isUpperCp (n + 32) = false := by
      simp only [isUpperCp, decide_eq_false_iff_not]
      omega
    simp [toLowerCp, h, h32]
  · simp [toLowerCp, h]

theorem toUpperCp_toUpperCp (n : Nat) : toUpperCp (toUpperCp n) = toUpperCp n := by
  by_cases h : isLowerCp n = true
  · have hn := isLowerCp_iff.mp h
    have h32 : isLowerCp (n - 32) = false := by
      simp only [isLowerCp, decide_eq_false_iff_not]
      omega
    simp [toUpperCp, h, h32]
  · simp [toUpperCp, h]

theorem isSpaceCp_toLowerCp (n : Nat) : isSpaceCp (toLowerCp n) = isSpaceCp n := by
  by_cases h : isUpperCp n = true
  · have hn := isUpperCp_iff.mp h
    simp only [toLowerCp, h, if_true]
    apply bool_eq_of_iff
    rw [isSpaceCp_iff, isSpaceCp_iff]
    omega
  · simp [toLowerCp, h]

theorem isSpaceCp_toUpperCp (n : Nat) : isSpaceCp (toUpperCp n) = isSpaceCp n := by
  by_cases h : isLowerCp n = true
  · have hn := isLowerCp_iff.mp h
    simp only [toUpperCp, h, if_true]
    apply bool_eq_of_iff
    rw [isSpaceCp_iff, isSpaceCp_iff]
    omega
  · simp [toUpperCp, h]

theorem isCasedCp_toLowerCp (n : Nat) : isCasedCp (toLowerCp n) = isCasedCp n := by
  by_cases h : isUpperCp n = true
  · have hn := isUpperCp_iff.mp h
    simp only [toLowerCp, h, if_true]
    apply bool_eq_of_iff
    rw [isCasedCp_iff, isCasedCp_iff]
    omega
  · simp [toLowerCp, h]

theorem isCasedCp_toUpperCp (n : Nat) : isCasedCp (toUpperCp n) = isCasedCp n := by
  by_cases h : isLowerCp n = true
  · have hn := isLowerCp_iff.mp h
    simp only [toUpperCp, h, if_true]
    apply bool_eq_of_iff
    rw [isCasedCp_iff, isCasedCp_iff]
    omega
  · simp [toUpperCp, h]

theorem not_isCasedCp_of_isSpaceCp {n : Nat} (h : isSpaceCp n = true) : isCasedCp n = false := by
  have hn := isSpaceCp_iff.mp h
  simp only [isCasedCp, isUpperCp, isLowerCp, Bool.or_eq_false_iff, decide_eq_false_iff_not]
  omega

theorem isSpaceCp_titleChar (prev : Bool) (n : Nat) :
    isSpaceCp (titleChar prev n) = isSpaceCp n := by
  unfold titleChar
  split
  · split
    · exact isSpaceCp_toLowerCp n
    · exact isSpaceCp_toUpperCp n
  · rfl

theorem isCasedCp_titleChar (prev : Bool) (n : Nat) :
    isCasedCp (titleChar prev n) = isCasedCp n := by
  unfold titleChar
  split
  · split
    · exact isCasedCp_toLowerCp n
    · exact isCasedCp_toUpperCp n
  · rfl

theorem toLowerCp_toUpperCp (n : Nat) : toLowerCp (toUpperCp n) = toLowerCp n := by
  by_cases h : isLowerCp n = true
  · have hn := isLowerCp_iff.mp h
    have hup : isUpperCp (n - 32) = true := by
      rw [isUpperCp_iff]
      omega
    have hnotup : isUpperCp n = false := by
      simp only [isUpperCp, decide_eq_false_iff_not]
      omega
    simp [toUpperCp, toLowerCp, h, hup, hnotup]
    omega
  · simp [toUpperCp, h, toLowerCp]

theorem toUpperCp_toLowerCp (n : Nat) : toUpperCp (toLowerCp n) = toUpperCp n := by
  by_cases h : isUpperCp n = true
  · have hn := isUpperCp_iff.mp h
    have hlo : isLowerCp (n + 32) = true := by
      rw [isLowerCp_iff]
      omega
    have hnotlo : isLowerCp n = false := by
      simp only [isLowerCp, decide_eq_false_iff_not]
      omega
    simp [toLowerCp, toUpperCp, h, hlo, hnotlo]
  · simp [toLowerCp, h, toUpperCp]

theorem titleChar_titleChar (prev : Bool) (n : Nat) :
    titleChar prev (titleChar prev n) = titleChar prev n := by
  unfold titleChar
  by_cases hc : isCasedCp n = true
  · simp only [hc, if_true]
    cases prev <;> simp [isCasedCp_toLowerCp, isCasedCp_toUpperCp, hc,
      toLowerCp_toLowerCp, toUpperCp_toUpperCp]
  · simp [hc]

/-! ### String-level lemmas -/

theorem lowerStr_lowerStr (l : Str) : lowerStr (lowerStr l) = lowerStr l := by
  unfold lowerStr
  rw [List.map_map]
  exact List.map_congr_left fun c _ => toLowerCp_toLowerCp c

theorem upperStr_upperStr (l : Str) : upperStr (upperStr l) = upperStr l := by
  unfold upperStr
  rw [List.map_map]
  exact List.map_congr_left fun c _ => toUpperCp_toUpperCp c

theorem digitsOnly_digitsOnly (l : Str) : digitsOnly (digitsOnly l) = digitsOnly l := by
  unfold digitsOnly
  induction l with
  | nil => rfl
  | cons c t ih =>
    by_cases h : isDigitCp c = true <;> simp [List.filter, h, ih]

theorem dropWhile_map_comm (f : Nat → Nat) (p : Nat → Bool)
    (hf : ∀ c, p (f c) = p c) (l : Str) :
    List.dropWhile p (l.map f) = (List.dropWhile p l).map f := by
  induction l with
  | nil => rfl
  | cons c t ih =>
    by_cases h : p c = true <;> simp [List.dropWhile, hf, h, ih]

theorem dropWhile_dropWhile (p : Nat → Bool) (l : Str) :
    List.dropWhile p (List.dropWhile p l) = List.dropWhile p l := by
  induction l with
  | nil => rfl
  | cons c t ih =>
    by_cases h : p c = true <;> simp [List.dropWhile, h, ih]

theorem stripL_map_comm (f : Nat → Nat) (hf : ∀ c, isSpaceCp (f c) = isSpaceCp c) (l : Str) :
    stripL (l.map f) = (stripL l).map f :=
  dropWhile_map_comm f isSpaceCp hf l

theorem rstripL_map_comm (f : Nat → Nat) (hf : ∀ c, isSpaceCp (f c) = isSpaceCp c) (l : Str) :
    rstripL (l.map f) = (rstripL l).map f := by
  unfold rstripL
  rw [← List.map_reverse, dropWhile_map_comm f isSpaceCp hf, List.map_reverse]

theorem pyStrip_map_comm (f : Nat → Nat) (hf : ∀ c, isSpaceCp (f c) = isSpaceCp c) (l : Str) :
    pyStrip (l.map f) = (pyStrip l).map f := by
  unfold pyStrip
  rw [stripL_map_comm f hf, rstripL_map_comm f hf]

theorem dropWhile_append_singleton {p : Nat → Bool} {a : Nat} (ha : p a = false) (m : Str) :
    ∃ m1, List.dropWhile p (m ++ [a]) = m1 ++ [a] := by
  induction m with
  | nil => exact ⟨[], by simp [List.dropWhile, ha]⟩
  | cons c t ih =>
    by_cases h : p c = true
    · simpa [List.dropWhile, h] using ih
    · exact ⟨c :: t, by simp [List.dropWhile, h]⟩

theorem dropWhile_head_false {p : Nat → Bool} {l : Str} {c : Nat} {t : Str}
    (h : List.dropWhile p l = c :: t) : p c = false := by
  induction l with
  | nil => simp at h
  | cons a m ih =>
    by_cases ha : p a = true
    · rw [List.dropWhile_cons_of_pos ha] at h
      exact ih h
    · rw [List.dropWhile_cons_of_neg (by simp [ha])] at h
      cases h
      simpa using ha

theorem rstripL_cons_of_head {c : Nat} (hc : isSpaceCp c = false) (t : Str) :
    ∃ m1, rstripL (c :: t) = c :: m1 := by
  unfold rstripL
  rw [List.reverse_cons]
  obtain ⟨m1, hm1⟩ := dropWhile_append_singleton hc t.reverse
  exact ⟨m1.reverse, by rw [hm1]; simp⟩

theorem rstripL_rstripL (l : Str) : rstripL (rstripL l) = rstripL l := by
  unfold rstripL
  rw [List.reverse_reverse, dropWhile_dropWhile]

theorem stripL_rstripL_of_stripped {l : Str} (h : List.dropWhile isSpaceCp l = l) :
    List.dropWhile isSpaceCp (rstripL l) = rstripL l := by
  cases hl : l with
  | nil => simp [rstripL]
  | cons c t =>
    have hc : isSpaceCp c = false := by
      by_cases hcc : isSpaceCp c = true
      · rw [hl, List.dropWhile_cons_of_pos hcc] at h
        have hle : (List.dropWhile isSpaceCp t).length ≤ t.length :=
          (List.dropWhile_sublist isSpaceCp).length_le
        rw [h] at hle
        simp at hle
      · simpa using hcc
    obtain ⟨m1, hm1⟩ := rstripL_cons_of_head hc t
    rw [hm1, List.dropWhile_cons_of_neg (by simp [hc])]

theorem pyStrip_pyStrip (l : Str) : pyStrip (pyStrip l) = pyStrip l := by
  show rstripL (List.dropWhile isSpaceCp (rstripL (List.dropWhile isSpaceCp l))) =
    rstripL (List.dropWhile isSpaceCp l)
  rw [stripL_rstripL_of_stripped (dropWhile_dropWhile isSpaceCp l), rstripL_rstripL]

theorem lowerStrip_lowerStrip (l : Str) : lowerStrip (lowerStrip l) = lowerStrip l := by
  unfold lowerStrip
  rw [show lowerStr (pyStrip (lowerStr l)) = pyStrip (lowerStr (lowerStr l)) from
    (pyStrip_map_comm toLowerCp isSpaceCp_toLowerCp (lowerStr l)).symm,
    lowerStr_lowerStr, pyStrip_pyStrip]

theorem upperStrip_upperStrip (l : Str) : upperStrip (upperStrip l) = upperStrip l := by
  unfold upperStrip
  rw [show upperStr (pyStrip (upperStr l)) = pyStrip (upperStr (upperStr l)) from
    (pyStrip_map_comm toUpperCp isSpaceCp_toUpperCp (upperStr l)).symm,
    upperStr_upperStr, pyStrip_pyStrip]

/-! ### `str.title` lemmas -/

theorem length_pyTitleAux (l : Str) (b : Bool) : (pyTitleAux l b).length = l.length := by
  induction l generalizing b with
  | nil => rfl
  | cons c t ih => simp [pyTitleAux, ih]

theorem pyTitleAux_append (a b : Str) (s : Bool) :
    pyTitleAux (a ++ b) s = pyTitleAux a s ++ pyTitleAux b (afterCased a s) := by
  induction a generalizing s with
  | nil => simp [pyTitleAux, afterCased]
  | cons c t ih => simp [pyTitleAux, ih, afterCased, List.foldl_cons]

theorem pyTitleAux_pyTitleAux (l : Str) (b : Bool) :
    pyTitleAux (pyTitleAux l b) b = pyTitleAux l b := by
  induction l generalizing b with
  | nil => rfl
  | cons c t ih =>
    simp only [pyTitleAux, isCasedCp_titleChar, titleChar_titleChar]
    rw [ih]

theorem pyTitleAux_fix_append {a b : Str} {s : Bool} (h : pyTitleAux (a ++ b) s = a ++ b) :
    pyTitleAux a s = a ∧ pyTitleAux b (afterCased a s) = b := by
  rw [pyTitleAux_append] at h
  exact ⟨List.append_inj_left h (length_pyTitleAux a s),
    List.append_inj_right h (length_pyTitleAux a s)⟩

theorem afterCased_of_not_cased {l : Str} (h : ∀ c ∈ l, isCasedCp c = false) :
    afterCased l false = false := by
  induction l with
  | nil => rfl
  | cons c t ih =>
    unfold afterCased
    rw [List.foldl_cons]
    have hc : isCasedCp c = false := h c (by simp)
    rw [hc]
    exact ih fun x hx => h x (by simp [hx])

/-- A `pyTitle` fixpoint stays a fixpoint after dropping leading whitespace. -/
theorem pyTitle_fix_stripL {l : Str} (h : pyTitleAux l false = l) :
    pyTitleAux (List.dropWhile isSpaceCp l) false = List.dropWhile isSpaceCp l := by
  have hdec : List.takeWhile isSpaceCp l ++ List.dropWhile isSpaceCp l = l :=
    List.takeWhile_append_dropWhile isSpaceCp l
  have h2 : pyTitleAux (List.takeWhile isSpaceCp l ++ List.dropWhile isSpaceCp l) false =
      List.takeWhile isSpaceCp l ++ List.dropWhile isSpaceCp l := by rw [hdec, h]
  obtain ⟨_, hright⟩ := pyTitleAux_fix_append h2
  have hws : afterCased (List.takeWhile isSpaceCp l) false = false :=
    afterCased_of_not_cased fun c hc =>
      not_isCasedCp_of_isSpaceCp (List.mem_takeWhile_imp hc)
  rwa [hws] at hright

/-- A `pyTitle` fixpoint stays a fixpoint after dropping trailing whitespace. -/
theorem pyTitle_fix_rstripL {l : Str} (h : pyTitleAux l false = l) :
    pyTitleAux (rstripL l) false = rstripL l := by
  have hdec : l = rstripL l ++ (List.takeWhile isSpaceCp l.reverse).reverse := by
    unfold rstripL
    have := List.takeWhile_append_dropWhile (p := isSpaceCp) (l := l.reverse)
    calc l = l.reverse.reverse := (List.reverse_reverse l).symm
    _ = (List.takeWhile isSpaceCp l.reverse ++ List.dropWhile isSpaceCp l.reverse).reverse := by
        rw [this]
    _ = (List.dropWhile isSpaceCp l.reverse).reverse ++
          (List.takeWhile isSpaceCp l.reverse).reverse := by
        rw [List.reverse_append]
  have h2 : pyTitleAux (rstripL l ++ (List.takeWhile isSpaceCp l.reverse).reverse) false =
      rstripL l ++ (List.takeWhile isSpaceCp l.reverse).reverse := by rw [← hdec, h]
  exact (pyTitleAux_fix_append h2).1

theorem titleStrip_titleStrip (l : Str) : titleStrip (titleStrip l) = titleStrip l := by
  unfold titleStrip pyTitle
  set y := pyTitleAux l false with hy
  have hfix : pyTitleAux y false = y := pyTitleAux_pyTitleAux l false
  have hstrip_fix : pyTitleAux (pyStrip y) false = pyStrip y := by
    unfold pyStrip stripL
    exact pyTitle_fix_rstripL (pyTitle_fix_stripL hfix)
  rw [hstrip_fix, pyStrip_pyStrip]

/-! ### Generic helpers shared by the cleaning functions -/

/-- Pandas `df.duplicated(…).sum() > 0`: some element occurs at least twice. -/
def has_dup {α : Type} [DecidableEq α] : List α → Bool
  | [] => false
  | x :: xs => decide (x ∈ xs) || has_dup xs

/-- Pandas `df.drop_duplicates(subset=key, keep='first')`: keep the first row with
each key, skipping rows whose key was already `seen`. -/
def dedup_by {α β : Type} [DecidableEq β] (key : α → β) (seen : List β) : List α → List α
  | [] => []
  | x :: xs =>
    if key x ∈ seen then dedup_by key seen xs
    else x :: dedup_by key (key x :: seen) xs

theorem has_dup_eq_false_iff {α : Type} [DecidableEq α] (l : List α) :
    has_dup l = false ↔ l.Nodup := by
  induction l with
  | nil => simp [has_dup]
  | cons x xs ih => simp [has_dup, ih]

theorem dedup_by_nodup {α β : Type} [DecidableEq β] (key : α → β) :
    ∀ (seen : List β) (l : List α),
      ((dedup_by key seen l).map key).Nodup ∧ ∀ x ∈ dedup_by key seen l, key x ∉ seen := by
  intro seen l
  induction l generalizing seen with
  | nil => simp [dedup_by]
  | cons x xs ih =>
    by_cases h : key x ∈ seen
    · simp only [dedup_by, if_pos h]
      exact ⟨(ih seen).1, fun y hy => (ih seen).2 y hy⟩
    · simp only [dedup_by, if_neg h]
      obtain ⟨ihn, ihs⟩ := ih (key x :: seen)
      refine ⟨?_, ?_⟩
      · simp only [List.map_cons, List.nodup_cons]
        exact ⟨fun hmem => by
          obtain ⟨y, hy, hky⟩ := List.mem_map.mp hmem
          exact ihs y hy (hky ▸ List.mem_cons_self _ _), ihn⟩
      · intro y hy
        rcases List.mem_cons.mp hy with rfl | hmem
        · exact h
        · exact fun hc => ihs y hmem (List.mem_cons_of_mem _ hc)

theorem dedup_by_subset {α β : Type} [DecidableEq β] (key : α → β) :
    ∀ (seen : List β) (l : List α), ∀ x ∈ dedup_by key seen l, x ∈ l := by
  intro seen l
  induction l generalizing seen with
  | nil => simp [dedup_by]
  | cons y ys ih =>
    intro x hx
    by_cases h : key y ∈ seen
    · simp only [dedup_by, if_pos h] at hx
      exact List.mem_cons_of_mem _ (ih seen x hx)
    · simp only [dedup_by, if_neg h] at hx
      rcases List.mem_cons.mp hx with rfl | hmem
      · exact List.mem_cons_self _ _
      · exact List.mem_cons_of_mem _ (ih _ x hmem)

/-- Year of a `yyyymmdd` timestamp. -/
def yearOf (t : Int) : Int := t / 10000

/-- Model of `pd.to_datetime(col, errors='coerce')` on a column the data model already
types as a timestamp: the identity, with `NaT = none`. -/
def parse_date (d : Option Int) : Option Int := d

/-- Decimal digits of a natural number. -/
def natToStr (n : Nat) : Str := (Nat.toDigits 10 n).map Char.toNat

/-- Python `f"{i}"` for an integer. -/
def intToStr (i : Int) : Str :=
  if i < 0 then 45 :: natToStr i.natAbs else natToStr i.toNat

/-! ### The email pattern `^[a-zA-Z0-9._%+-]+@[a-zA-Z0-9.-]+\.[a-zA-Z]{2,}$` -/

/-- Character class `[a-zA-Z0-9._%+-]` of the local part. -/
def localChar (n : Nat) : Bool :=
  isCasedCp n || isDigitCp n || n == 46 || n == 95 || n == 37 || n == 43 || n == 45

/-- Character class `[a-zA-Z0-9.-]` of the domain part. -/
def domChar (n : Nat) : Bool := isCasedCp n || isDigitCp n || n == 46 || n == 45

/-- Split a string at its first `@` (codepoint 64), if any. -/
def splitAtSign : Str → Option (Str × Str)
  | [] => none
  | c :: t =>
    if c == 64 then some ([], t)
    else (splitAtSign t).map fun p => (c :: p.1, p.2)

/-- Match `[a-zA-Z0-9.-]+\.[a-zA-Z]{2,}$` against the part after the `@`;
`seen` records whether at least one domain character was consumed, and the
`||` tries every position of the final dot, as the backtracking regex does. -/
def domTailMatch (seen : Bool) : Str → Bool
  | [] => false
  | c :: t =>
    (seen && c == 46 && decide (2 ≤ t.length) && t.all isCasedCp) ||
    (domChar c && domTailMatch true t)

/-- Python `re.match` of the full email pattern (anchored on both sides). -/
def emailOk (s : Str) : Bool :=
  match splitAtSign s with
  | none => false
  | some (loc, rest) => decide (loc ≠ []) && loc.all localChar && domTailMatch false rest

/-! ### Data model: Cliente, Produto, Venda, Logistica, CorrectionRecord -/

/-- A customer row (`clientes` dataset). -/
structure Cliente where
  id_cliente : Int
  nome : Option Str
  email : Option Str
  telefone : Option Str
  estado : Option Str
  cidade : Option Str
  data_cadastro : Option Int
  data_nascimento : Option Int
deriving DecidableEq

/-- A dynamically typed pandas cell, as needed for the `ativo` column, which
holds text before cleaning and booleans (or NaN) after. -/
inductive PVal where
  | pstr (s : Str)
  | pbool (b : Bool)
  | pnone
deriving DecidableEq

/-- Python `str(x)` as produced by `astype(str)`. -/
def pyStrOf : PVal → Str
  | .pstr s => s
  | .pbool true => str "True"
  | .pbool false => str "False"
  | .pnone => str "nan"

/-- A product row (`produtos` dataset). -/
structure Produto where
  id_produto : Int
  nome_produto : Option Str
  categoria : Option Str
  preco : ℚ
  estoque : Int
  ativo : PVal
  data_criacao : Option Int
deriving DecidableEq

/-- A sale row (`vendas` dataset). -/
structure Venda where
  id_venda : Int
  id_cliente : Int
  id_produto : Int
  quantidade : Int
  valor_unitario : ℚ
  valor_total : ℚ
  data_venda : Option Int
  status : Option Str
deriving DecidableEq

/-- A shipment row (`logistica` dataset). -/
structure Logistica where
  id_entrega : Int
  id_venda : Int
  data_envio : Option Int
  data_entrega_prevista : Option Int
  data_entrega_real : Option Int
  status_entrega : Option Str
  transportadora : Option Str
deriving DecidableEq

/-- One entry of `DataCleaner.corrections_log`, as built by
`DataCleaner.log_correction`. -/
structure CorrectionRecord where
  timestamp : Int
  dataset : Str
  record_id : Int
  field : Str
  old_value : Str
  new_value : Str
  reason : Str
deriving DecidableEq

/-- Model of `DataCleaner.log_correction`: append one correction record to the log.
This method exists in the source but is never invoked by any of the
`clean_*` methods. -/
def log_correction (now : Int) (log : List CorrectionRecord) (dataset : Str)
    (record_id : Int) (field : Str) (old_value new_value : Str) (reason : Str) :
    List CorrectionRecord :=
  log ++ [{ timestamp := now, dataset, record_id, field, old_value, new_value, reason }]

/-! ### `DataCleaner.clean_clientes` -/

/-- Comparison used by `sort_values('data_cadastro', ascending=False)`:
descending by date, with `NaT` sorted last (`na_position='last'`). -/
def cadastroGE : Option Int → Option Int → Bool
  | some x, some y => decide (y ≤ x)
  | some _, none => true
  | none, none => true
  | none, some _ => false

/-- Insert one row into a list already sorted by `cadastroGE`. -/
def insertByCadastro (c : Cliente) : List Cliente → List Cliente
  | [] => [c]
  | x :: xs =>
    if cadastroGE c.data_cadastro x.data_cadastro then c :: x :: xs
    else x :: insertByCadastro c xs

/-- Pandas `df.sort_values('data_cadastro', ascending=False)` (insertion sort; the
source's quicksort fixes no order among equal keys either). -/
def sortByCadastro : List Cliente → List Cliente
  | [] => []
  | c :: rest => insertByCadastro c (sortByCadastro rest)

/-- Step 2: `telefone.astype(str)` then `re.sub(r"\D", "", x)`; `astype(str)`
renders NaN as the string `"nan"`, which has no digits. -/
def fix_telefone (c : Cliente) : Cliente :=
  { c with telefone := some (digitsOnly (c.telefone.getD (str "nan"))) }

/-- Step 3: `email.str.lower().str.strip()` (NaN stays NaN). -/
def fix_email_norm (c : Cliente) : Cliente :=
  { c with email := c.email.map lowerStrip }

/-- Step 4: null the emails that do not match the pattern
(`str.match(…, na=False)` counts NaN as non-matching, and nulling a NaN
leaves it NaN). -/
def fix_email_valid (c : Cliente) : Cliente :=
  { c with email := match c.email with
      | none => none
      | some s => if emailOk s then some s else none }

/-- Step 5: `estado.str.upper().str.strip()`. -/
def fix_estado (c : Cliente) : Cliente :=
  { c with estado := c.estado.map upperStrip }

/-- Step 6: `cidade.str.title().str.strip()`. -/
def fix_cidade (c : Cliente) : Cliente :=
  { c with cidade := c.cidade.map titleStrip }

/-- The synthesized placeholder `f"Cliente {x}"`. -/
def clientePlaceholder (id : Int) : Str := str "Cliente " ++ intToStr id

/-- Step 7: fill blank names (`isna` or all-whitespace) with the placeholder. -/
def fix_nome (c : Cliente) : Cliente :=
  { c with nome := match c.nome with
      | none => some (clientePlaceholder c.id_cliente)
      | some s => if pyStrip s = [] then some (clientePlaceholder c.id_cliente) else some s }

/-- Step 8: null birth dates outside `[1900, current_year]` (`NaT.dt.year`
comparisons are false, so NaT is left alone). -/
def fix_nascimento (current_year : Int) (c : Cliente) : Cliente :=
  { c with data_nascimento := match parse_date c.data_nascimento with
      | none => none
      | some t => if yearOf t < 1900 ∨ current_year < yearOf t then none else some t }

/-- Steps 2–8 of `clean_clientes`, column by column in source order. -/
def clienteFixes (current_year : Int) (l : List Cliente) : List Cliente :=
  ((((((l.map fix_telefone).map fix_email_norm).map fix_email_valid).map
    fix_estado).map fix_cidade).map fix_nome).map (fix_nascimento current_year)

/-- Model of `DataCleaner.clean_clientes`: deduplicate by `id_cliente` keeping the most
recent `data_cadastro` (only when duplicates exist, exactly as the source
guards it), then apply the column corrections. `pd.to_datetime` on
`data_cadastro` inside the guard is the identity in this model. -/
def clean_clientes (current_year : Int) (df : List Cliente) : List Cliente :=
  let step1 :=
    if has_dup (df.map (·.id_cliente)) then
      dedup_by (·.id_cliente) [] (sortByCadastro df)
    else df
  clienteFixes current_year step1

/-! ### `DataCleaner.clean_produtos` -/

/-- Step 2: negative prices become their absolute value. -/
def fix_preco (p : Produto) : Produto :=
  { p with preco := if p.preco < 0 then |p.preco| else p.preco }

/-- Step 3: negative stock clamps to zero. -/
def fix_estoque (p : Produto) : Produto :=
  { p with estoque := if p.estoque < 0 then 0 else p.estoque }

/-- Step 4: blank categories become `"Sem Categoria"`. -/
def fix_categoria_vazia (p : Produto) : Produto :=
  { p with categoria := match p.categoria with
      | none => some (str "Sem Categoria")
      | some s => if pyStrip s = [] then some (str "Sem Categoria") else some s }

/-- Step 5: `categoria.str.title().str.strip()`. -/
def fix_categoria_title (p : Produto) : Produto :=
  { p with categoria := p.categoria.map titleStrip }

/-- Step 6: `nome_produto.str.strip()`. -/
def fix_nome_produto (p : Produto) : Produto :=
  { p with nome_produto := p.nome_produto.map pyStrip }

/-- Step 7: `ativo.astype(str).str.lower()` then
`.map({'true': True, 'false': False})`; unmapped values become NaN. -/
def parse_ativo (v : PVal) : PVal :=
  let t := lowerStr (pyStrOf v)
  if t = str "true" then .pbool true
  else if t = str "false" then .pbool false
  else .pnone

/-- Step 7 applied to a row. -/
def fix_ativo (p : Produto) : Produto :=
  { p with ativo := parse_ativo p.ativo }

/-- Step 8: `pd.to_datetime(data_criacao, errors='coerce')`. -/
def fix_data_criacao (p : Produto) : Produto :=
  { p with data_criacao := parse_date p.data_criacao }

/-- Model of `DataCleaner.clean_produtos`: drop fully duplicate rows (only when such
rows exist), then the column corrections in source order. -/
def clean_produtos (df : List Produto) : List Produto :=
  let step1 := if has_dup df then dedup_by id [] df else df
  ((((((step1.map fix_preco).map fix_estoque).map fix_categoria_vazia).map
    fix_categoria_title).map fix_nome_produto).map fix_ativo).map fix_data_criacao

/-! ### `DataCleaner.clean_vendas` -/

/-- Step 3: for rows whose status differs from `"Cancelada"`, a non-positive
quantity becomes its absolute value. -/
def fix_quantidade (v : Venda) : Venda :=
  if v.status ≠ some (str "Cancelada") ∧ v.quantidade ≤ 0 then
    { v with quantidade := |v.quantidade| }
  else v

/-- Step 4: recompute `valor_total = quantidade * valor_unitario` when it
differs from the stored value by more than one cent. -/
def fix_valor_total (v : Venda) : Venda :=
  if |v.valor_total - (v.quantidade : ℚ) * v.valor_unitario| > 1 / 100 then
    { v with valor_total := (v.quantidade : ℚ) * v.valor_unitario }
  else v

/-- Step 5: clamp future sale dates to the current time (`NaT > now` is
false, so NaT is kept). -/
def fix_data_venda (now : Int) (v : Venda) : Venda :=
  { v with data_venda := match parse_date v.data_venda with
      | none => none
      | some t => if now < t then some now else some t }

/-- Step 6: `status.str.title().str.strip()`. -/
def fix_status_venda (v : Venda) : Venda :=
  { v with status := v.status.map titleStrip }

/-- Model of `DataCleaner.clean_vendas`: referential drops against the cleaned
customers and products first, then the value corrections in source order. -/
def clean_vendas (now : Int) (df : List Venda) (df_clientes : List Cliente)
    (df_produtos : List Produto) : List Venda :=
  let valid_clients : List Int := df_clientes.map (·.id_cliente)
  let s1 := df.filter fun v => decide (v.id_cliente ∈ valid_clients)
  let valid_products : List Int := df_produtos.map (·.id_produto)
  let s2 := s1.filter fun v => decide (v.id_produto ∈ valid_products)
  (((s2.map fix_quantidade).map fix_valor_total).map (fix_data_venda now)).map fix_status_venda

/-! ### `DataCleaner.clean_logistica` -/

/-- Step 2: parse the three date columns. -/
def fix_datas_logistica (l : Logistica) : Logistica :=
  { l with
    data_envio := parse_date l.data_envio
    data_entrega_prevista := parse_date l.data_entrega_prevista
    data_entrega_real := parse_date l.data_entrega_real }

/-- Step 3: `status_entrega.str.title().str.strip()`. -/
def fix_status_entrega (l : Logistica) : Logistica :=
  { l with status_entrega := l.status_entrega.map titleStrip }

/-- Step 4: `transportadora.str.title().str.strip()`. -/
def fix_transportadora (l : Logistica) : Logistica :=
  { l with transportadora := l.transportadora.map titleStrip }

/-- Model of `DataCleaner.clean_logistica`: drop shipments whose sale is not in the
cleaned sales, then the column corrections.  Step 5 of the source only logs
rows whose actual delivery precedes the ship date, mutating nothing. -/
def clean_logistica (df : List Logistica) (df_vendas : List Venda) : List Logistica :=
  let valid_sales := df_vendas.map (·.id_venda)
  let s1 := df.filter fun l => decide (l.id_venda ∈ valid_sales)
  ((s1.map fix_datas_logistica).map fix_status_entrega).map fix_transportadora

/-! ### `DataCleaner.clean_all` -/

/-- The four cleaned collections returned by `clean_all`. -/
structure CleanedData where
  clientes : List Cliente
  produtos : List Produto
  vendas : List Venda
  logistica : List Logistica
deriving DecidableEq

/-- Model of `DataCleaner.clean_all`: the four entity cleanings in dependency order
(customers, products, sales against both, shipments against sales). -/
def clean_all (current_year now : Int) (clientes_df : List Cliente)
    (produtos_df : List Produto) (vendas_df : List Venda)
    (logistica_df : List Logistica) : CleanedData :=
  let clientes_clean := clean_clientes current_year clientes_df
  let produtos_clean := clean_produtos produtos_df
  let vendas_clean := clean_vendas now vendas_df clientes_clean produtos_clean
  let logistica_clean := clean_logistica logistica_df vendas_clean
  { clientes := clientes_clean, produtos := produtos_clean,
    vendas := vendas_clean, logistica := logistica_clean }

/-- A cleaning step of the source never calls `log_correction`, so running
any of them leaves the cleaner's `corrections_log` unchanged; this wrapper
makes that state explicit for `clean_vendas`. -/
def clean_vendas_run (log : List CorrectionRecord) (now : Int) (df : List Venda)
    (df_clientes : List Cliente) (df_produtos : List Produto) :
    List Venda × List CorrectionRecord :=
  (clean_vendas now df df_clientes df_produtos, log)

/-! ### The Alert Engine (`sistema_alertas.py`) -/

/-- Severity levels (the enum `Severity`). -/
inductive Severity where
  | LOW
  | MEDIUM
  | HIGH
  | CRITICAL
deriving DecidableEq

/-- The summary block of a quality-results structure. -/
structure Summary where
  total : Nat
  successful : Nat
  failed : Nat
  success_rate : ℚ
deriving DecidableEq

/-- The payloads actually passed as `details` by the source: nothing
(`None`), a checkpoint error dict, or the summary dict. -/
inductive Details where
  | none
  | errorD (e : Str)
  | summaryD (s : Summary)
deriving DecidableEq

/-- The initial status string `"ABERTO"` (OPEN). -/
def statusAberto : Str := str "ABERTO"

/-- An `Alert`, as built by `Alert.__init__`: the percentage is
`affected/total*100`, or `0` when `total` is not positive, and the status
starts as `"ABERTO"`. -/
structure Alert where
  timestamp : Int
  dataset : Str
  issue : Str
  severity : Severity
  affected_records : Nat
  total_records : Nat
  percentage : ℚ
  details : Details
  status : Str
deriving DecidableEq

/-- Model of `Alert.__init__` as a function of its arguments. -/
def Alert.make (now : Int) (dataset issue : Str) (severity : Severity)
    (affected total : Nat) (details : Details) : Alert :=
  { timestamp := now, dataset, issue, severity,
    affected_records := affected, total_records := total,
    percentage := if 0 < total then (affected : ℚ) / (total : ℚ) * 100 else 0,
    details, status := statusAberto }

/-- Model of `AlertSystem.determine_severity`: `None` below 1 %, then Low, Medium,
High, Critical by the threshold table. -/
def determine_severity (percentage : ℚ) : Option Severity :=
  if percentage < 1 then none
  else if percentage < 3 then some .LOW
  else if percentage < 5 then some .MEDIUM
  else if percentage < 10 then some .HIGH
  else some .CRITICAL

/-- Model of `AlertSystem.create_alert`: compute the percentage, classify, and either
return no alert (below 1 %) or append a new `"ABERTO"` alert to the
engine's list. -/
def create_alert (now : Int) (alerts : List Alert) (dataset issue : Str)
    (affected total : Nat) (details : Details) : Option Alert × List Alert :=
  let percentage : ℚ := if 0 < total then (affected : ℚ) / (total : ℚ) * 100 else 0
  match determine_severity percentage with
  | Option.none => (Option.none, alerts)
  | some severity =>
    let alert := Alert.make now dataset issue severity affected total details
    (some alert, alerts ++ [alert])

/-- An `Escalation`: the alert snapshot (`alert.to_dict()`), the recipient
roles, the SLA, and the escalation timestamp. -/
structure Escalation where
  alert : Alert
  recipients : List Str
  sla_hours : Nat
  escalated_at : Int
deriving DecidableEq

/-- Model of `AlertSystem.escalate_alert`: recipients and SLA are looked up from the
alert's severity; the alert itself is only read, never written. -/
def escalate_alert (now : Int) (alert : Alert) : Escalation :=
  let pair : List Str × Nat :=
    if alert.severity = .CRITICAL then ([str "CDO", str "Data Owner", str "Data Steward"], 4)
    else if alert.severity = .HIGH then ([str "Data Owner", str "Data Steward"], 24)
    else if alert.severity = .MEDIUM then ([str "Data Steward"], 48)
    else ([str "Data Custodian"], 168)
  { alert, recipients := pair.1, sla_hours := pair.2, escalated_at := now }

/-- One named checkpoint result of the external checker. -/
structure Checkpoint where
  success : Bool
  error : Option Str
deriving DecidableEq

/-- The quality-results structure consumed by the Alert Engine. -/
structure Results where
  checkpoints : List (Str × Checkpoint)
  summary : Summary
deriving DecidableEq

/-- Python `str.replace(pat, rep)` with non-overlapping left-to-right
replacement, fuelled by the string length (enough, since every step consumes
at least one character of a nonempty pattern). -/
def replaceFuel (pat rep : Str) : Nat → Str → Str
  | 0, s => s
  | _ + 1, [] => []
  | fuel + 1, c :: t =>
    if pat ≠ [] ∧ pat.isPrefixOf (c :: t) then
      rep ++ replaceFuel pat rep fuel ((c :: t).drop pat.length)
    else c :: replaceFuel pat rep fuel t

/-- Python `str.replace` for a nonempty pattern. -/
def replaceAll (pat rep s : Str) : Str := replaceFuel pat rep (s.length + 1) s

/-- The transform `checkpoint.replace('checkpoint_', '').replace('_lab', '')`. -/
def datasetName (checkpoint : Str) : Str :=
  replaceAll (str "_lab") [] (replaceAll (str "checkpoint_") [] checkpoint)

/-- Model of `AlertSystem.analyze_quality_results`: one (affected=1, total=1) alert
per failed checkpoint, then one aggregate alert over the summary whenever
the failure rate is positive. -/
def analyze_quality_results (now : Int) (alerts : List Alert) (results : Results) :
    List Alert :=
  let st1 := results.checkpoints.foldl
    (fun acc cp =>
      if cp.2.success then acc
      else (create_alert now acc (datasetName cp.1) (str "Checkpoint falhou completamente")
        1 1 (.errorD (cp.2.error.getD (str "Unknown")))).2)
    alerts
  let failure_rate : ℚ := 100 - results.summary.success_rate
  if 0 < failure_rate then
    (create_alert now st1 (str "GERAL") (str "Taxa de falha nos checkpoints")
      results.summary.failed results.summary.total (.summaryD results.summary)).2
  else st1

/-- Model of `AlertSystem.process_alerts`: analyze, then escalate every Critical or
High alert; the dashboard rendering and file persistence are sinks that
leave the engine's state untouched.  Returns the engine's alert list and
the escalations produced. -/
def process_alerts (now : Int) (alerts : List Alert) (results : Results) :
    List Alert × List Escalation :=
  let st := analyze_quality_results now alerts results
  (st, (st.filter fun a => decide (a.severity = .CRITICAL ∨ a.severity = .HIGH)).map
    (escalate_alert now))

/-! ### Lemmas about `clean_clientes` -/

/-- The per-row effect of steps 2–8 of `clean_clientes`. -/
def clienteFix1 (current_year : Int) (c : Cliente) : Cliente :=
  fix_nascimento current_year
    (fix_nome (fix_cidade (fix_estado (fix_email_valid (fix_email_norm (fix_telefone c))))))

theorem clienteFixes_eq_map (current_year : Int) (l : List Cliente) :
    clienteFixes current_year l = l.map (clienteFix1 current_year) := by
  simp [clienteFixes, clienteFix1, List.map_map, Function.comp]

theorem pyStrip_cons_ne_nil {c : Nat} (hc : isSpaceCp c = false) (t : Str) :
    pyStrip (c :: t) ≠ [] := by
  unfold pyStrip stripL
  rw [List.dropWhile_cons_of_neg (by simp [hc])]
  obtain ⟨m1, hm1⟩ := rstripL_cons_of_head hc t
  rw [hm1]
  simp

theorem clientePlaceholder_not_blank (id : Int) : pyStrip (clientePlaceholder id) ≠ [] := by
  have h : clientePlaceholder id = 67 :: (str "liente " ++ intToStr id) := rfl
  rw [h]
  exact pyStrip_cons_ne_nil (by decide) _

theorem clienteFix1_idem (current_year : Int) (c : Cliente) :
    clienteFix1 current_year (clienteFix1 current_year c) = clienteFix1 current_year c := by
  cases c with
  | mk id nome email telefone estado cidade data_cadastro data_nascimento =>
    simp only [clienteFix1, fix_telefone, fix_email_norm, fix_email_valid, fix_estado,
      fix_cidade, fix_nome, fix_nascimento, parse_date, Cliente.mk.injEq]
    refine ⟨trivial, ?_, ?_, ?_, ?_, ?_, trivial, ?_⟩
    · -- nome
      cases nome with
      | none => simp [clientePlaceholder_not_blank id]
      | some s =>
        by_cases hb : pyStrip s = []
        · simp [hb, clientePlaceholder_not_blank id]
        · simp [hb]
    · -- email
      cases email with
      | none => rfl
      | some s =>
        by_cases hok : emailOk (lowerStrip s) = true
        · simp [hok, lowerStrip_lowerStrip]
        · simp [hok]
    · -- telefone
      cases telefone <;> simp [digitsOnly_digitsOnly]
    · -- estado
      cases estado <;> simp [upperStrip_upperStrip]
    · -- cidade
      cases cidade <;> simp [titleStrip_titleStrip]
    · -- data_nascimento
      cases data_nascimento with
      | none => rfl
      | some t =>
        by_cases hr : yearOf t < 1900 ∨ current_year < yearOf t
        · simp [hr]
        · simp [hr]

theorem clienteFixes_idem (current_year : Int) (l : List Cliente) :
    clienteFixes current_year (clienteFixes current_year l) = clienteFixes current_year l := by
  rw [clienteFixes_eq_map, clienteFixes_eq_map, List.map_map]
  exact List.map_congr_left fun c _ => clienteFix1_idem current_year c

theorem clienteFix1_id (current_year : Int) (c : Cliente) :
    (clienteFix1 current_year c).id_cliente = c.id_cliente := rfl

theorem clienteFixes_ids (current_year : Int) (l : List Cliente) :
    (clienteFixes current_year l).map (·.id_cliente) = l.map (·.id_cliente) := by
  rw [clienteFixes_eq_map, List.map_map]
  exact List.map_congr_left fun c _ => rfl

theorem clean_clientes_ids_nodup (current_year : Int) (df : List Cliente) :
    ((clean_clientes current_year df).map (·.id_cliente)).Nodup := by
  unfold clean_clientes
  rw [clienteFixes_ids]
  by_cases h : has_dup (df.map (·.id_cliente)) = true
  · simp only [h, if_true]
    exact (dedup_by_nodup (·.id_cliente) [] (sortByCadastro df)).1
  · simp only [h, if_false]
    exact (has_dup_eq_false_iff _).mp (by simpa using h)

theorem clean_clientes_of_nodup {current_year : Int} {l : List Cliente}
    (h : has_dup (l.map (·.id_cliente)) = false) :
    clean_clientes current_year l = clienteFixes current_year l := by
  unfold clean_clientes
  rw [h]
  rfl

/-! ### Lemmas about `clean_vendas` and `clean_logistica` -/

theorem fix_quantidade_id_cliente (v : Venda) :
    (fix_quantidade v).id_cliente = v.id_cliente := by
  unfold fix_quantidade
  split <;> rfl

theorem fix_quantidade_id_produto (v : Venda) :
    (fix_quantidade v).id_produto = v.id_produto := by
  unfold fix_quantidade
  split <;> rfl

theorem fix_valor_total_id_cliente (v : Venda) :
    (fix_valor_total v).id_cliente = v.id_cliente := by
  unfold fix_valor_total
  split <;> rfl

theorem fix_valor_total_id_produto (v : Venda) :
    (fix_valor_total v).id_produto = v.id_produto := by
  unfold fix_valor_total
  split <;> rfl

theorem fix_valor_total_close (v : Venda) :
    |(fix_valor_total v).valor_total -
      ((fix_valor_total v).quantidade : ℚ) * (fix_valor_total v).valor_unitario| ≤ 1 / 100 := by
  unfold fix_valor_total
  by_cases h : |v.valor_total - (v.quantidade : ℚ) * v.valor_unitario| > 1 / 100
  · rw [if_pos h]
    simp
  · rw [if_neg h]
    exact le_of_not_lt h

theorem clean_vendas_refs (now : Int) (df : List Venda) (df_clientes : List Cliente)
    (df_produtos : List Produto) :
    ∀ v ∈ clean_vendas now df df_clientes df_produtos,
      v.id_cliente ∈ df_clientes.map (·.id_cliente) ∧
      v.id_produto ∈ df_produtos.map (·.id_produto) := by
  intro v hv
  simp only [clean_vendas] at hv
  obtain ⟨v3, hv3, rfl⟩ := List.mem_map.mp hv
  obtain ⟨v2, hv2, rfl⟩ := List.mem_map.mp hv3
  obtain ⟨v1, hv1, rfl⟩ := List.mem_map.mp hv2
  obtain ⟨v0, hv0, rfl⟩ := List.mem_map.mp hv1
  have h2 := List.mem_filter.mp hv0
  have h1 := List.mem_filter.mp h2.1
  constructor
  · show (fix_valor_total (fix_quantidade v0)).id_cliente ∈ df_clientes.map (·.id_cliente)
    rw [fix_valor_total_id_cliente, fix_quantidade_id_cliente]
    exact of_decide_eq_true h1.2
  · show (fix_valor_total (fix_quantidade v0)).id_produto ∈ df_produtos.map (·.id_produto)
    rw [fix_valor_total_id_produto, fix_quantidade_id_produto]
    exact of_decide_eq_true h2.2

theorem clean_vendas_total_ok (now : Int) (df : List Venda) (df_clientes : List Cliente)
    (df_produtos : List Produto) :
    ∀ v ∈ clean_vendas now df df_clientes df_produtos,
      |v.valor_total - (v.quantidade : ℚ) * v.valor_unitario| ≤ 1 / 100 := by
  intro v hv
  simp only [clean_vendas] at hv
  obtain ⟨v3, hv3, rfl⟩ := List.mem_map.mp hv
  obtain ⟨v2, hv2, rfl⟩ := List.mem_map.mp hv3
  obtain ⟨v1, hv1, rfl⟩ := List.mem_map.mp hv2
  obtain ⟨v0, hv0, rfl⟩ := List.mem_map.mp hv1
  exact fix_valor_total_close (fix_quantidade v0)

theorem clean_logistica_refs (df : List Logistica) (df_vendas : List Venda) :
    ∀ l ∈ clean_logistica df df_vendas, l.id_venda ∈ df_vendas.map (·.id_venda) := by
  intro l hl
  simp only [clean_logistica] at hl
  obtain ⟨l2, hl2, rfl⟩ := List.mem_map.mp hl
  obtain ⟨l1, hl1, rfl⟩ := List.mem_map.mp hl2
  obtain ⟨l0, hl0, rfl⟩ := List.mem_map.mp hl1
  have h1 := List.mem_filter.mp hl0
  exact of_decide_eq_true h1.2

/-! ### Lemmas about the Alert Engine -/

theorem determine_severity_none {p : ℚ} (h : p < 1) : determine_severity p = none := by
  simp [determine_severity, h]

theorem determine_severity_low {p : ℚ} (h1 : 1 ≤ p) (h2 : p < 3) :
    determine_severity p = some .LOW := by
  unfold determine_severity
  rw [if_neg (not_lt.mpr h1), if_pos h2]

theorem determine_severity_medium {p : ℚ} (h1 : 3 ≤ p) (h2 : p < 5) :
    determine_severity p = some .MEDIUM := by
  unfold determine_severity
  rw [if_neg (by linarith), if_neg (not_lt.mpr h1), if_pos h2]

theorem determine_severity_high {p : ℚ} (h1 : 5 ≤ p) (h2 : p < 10) :
    determine_severity p = some .HIGH := by
  unfold determine_severity
  rw [if_neg (by linarith), if_neg (by linarith), if_neg (not_lt.mpr h1), if_pos h2]

theorem determine_severity_critical {p : ℚ} (h1 : 10 ≤ p) :
    determine_severity p = some .CRITICAL := by
  unfold determine_severity
  rw [if_neg (by linarith), if_neg (by linarith), if_neg (by linarith),
    if_neg (not_lt.mpr h1)]

theorem create_alert_status_inv (now : Int) (st : List Alert) (dataset issue : Str)
    (affected total : Nat) (details : Details)
    (h : ∀ x ∈ st, x.status = statusAberto) :
    ∀ x ∈ (create_alert now st dataset issue affected total details).2,
      x.status = statusAberto := by
  unfold create_alert
  cases hds : determine_severity (if 0 < total then (affected : ℚ) / (total : ℚ) * 100 else 0) with
  | none => simp only [hds]; exact h
  | some sev =>
    simp only [hds]
    intro x hx
    rcases List.mem_append.mp hx with hmem | hmem
    · exact h x hmem
    · rw [List.mem_singleton.mp hmem]
      rfl

theorem analyze_status_inv (now : Int) (st : List Alert) (results : Results)
    (h : ∀ x ∈ st, x.status = statusAberto) :
    ∀ x ∈ analyze_quality_results now st results, x.status = statusAberto := by
  unfold analyze_quality_results
  have hfold : ∀ (cps : List (Str × Checkpoint)) (acc : List Alert),
      (∀ x ∈ acc, x.status = statusAberto) →
      ∀ x ∈ cps.foldl
        (fun acc cp =>
          if cp.2.success then acc
          else (create_alert now acc (datasetName cp.1) (str "Checkpoint falhou completamente")
            1 1 (.errorD (cp.2.error.getD (str "Unknown")))).2)
        acc, x.status = statusAberto := by
    intro cps
    induction cps with
    | nil => intro acc hacc; simpa using hacc
    | cons cp rest ih =>
      intro acc hacc
      rw [List.foldl_cons]
      apply ih
      by_cases hs : cp.2.success = true
      · simpa [hs] using hacc
      · simp only [hs, if_false]
        exact create_alert_status_inv now acc _ _ 1 1 _ hacc
  by_cases hfr : (0 : ℚ) < 100 - results.summary.success_rate
  · simp only [hfr, if_true]
    exact create_alert_status_inv now _ _ _ _ _ _ (hfold _ st h)
  · simp only [hfr, if_false]
    exact hfold _ st h

theorem process_alerts_status_inv (now : Int) (st : List Alert) (results : Results)
    (h : ∀ x ∈ st, x.status = statusAberto) :
    ∀ x ∈ (process_alerts now st results).1, x.status = statusAberto :=
  analyze_status_inv now st results h

/-- Evaluation of `create_alert` with one affected record out of one: 100 %, hence a
Critical alert. -/
theorem create_alert_one_one (now : Int) (st : List Alert) (dataset issue : Str)
    (details : Details) :
    create_alert now st dataset issue 1 1 details =
      (some (Alert.make now dataset issue .CRITICAL 1 1 details),
        st ++ [Alert.make now dataset issue .CRITICAL 1 1 details]) := by
  have hsev : determine_severity
      (if 0 < (1 : Nat) then ((1 : Nat) : ℚ) / ((1 : Nat) : ℚ) * 100 else 0) =
      some .CRITICAL := by
    rw [if_pos (by norm_num)]
    exact determine_severity_critical (by norm_num)
  simp only [create_alert, hsev]

/-! ### Concrete sample data -/

/-- A raw customer row that `clean_clientes` leaves with id 1. -/
def clienteW : Cliente :=
  { id_cliente := 1, nome := some (str "Ana"), email := none, telefone := none,
    estado := none, cidade := none, data_cadastro := some 20230101,
    data_nascimento := none }

/-- A raw product row that `clean_produtos` leaves with id 1. -/
def produtoW : Produto :=
  { id_produto := 1, nome_produto := none, categoria := some (str "Sem Categoria"),
    preco := 5, estoque := 1, ativo := PVal.pbool true, data_criacao := none }

/-- A consistent sale row (total = 2 × 5) referencing customer 1, product 1;
`clean_vendas` leaves it unchanged. -/
def vendaW : Venda :=
  { id_venda := 1, id_cliente := 1, id_produto := 1, quantidade := 2,
    valor_unitario := 5, valor_total := 10, data_venda := some 20240101,
    status := some (str "Entregue") }

/-- A shipment row referencing sale 1; `clean_logistica` leaves it
unchanged. -/
def logisticaW : Logistica :=
  { id_entrega := 1, id_venda := 1, data_envio := none, data_entrega_prevista := none,
    data_entrega_real := none, status_entrega := some (str "Entregue"),
    transportadora := some (str "Correios") }

theorem fix_quantidade_vendaW : fix_quantidade vendaW = vendaW := by decide

theorem fix_valor_total_vendaW : fix_valor_total vendaW = vendaW := by
  unfold fix_valor_total
  rw [if_neg]
  simp only [vendaW]
  norm_num

theorem clean_vendas_vendaW :
    clean_vendas 20250101 [vendaW] (clean_clientes 2025 [clienteW])
      (clean_produtos [produtoW]) = [vendaW] := by
  have h : clean_vendas 20250101 [vendaW] (clean_clientes 2025 [clienteW])
      (clean_produtos [produtoW]) =
      [fix_status_venda (fix_data_venda 20250101 (fix_valor_total (fix_quantidade vendaW)))] :=
    rfl
  rw [h, fix_quantidade_vendaW, fix_valor_total_vendaW]
  decide

/-! ### Claim C1 -/

/-- C1: for every call `create_alert(dataset, issue, affected, total,
details)`, the percentage is `affected/total*100` (and `0` when
`total = 0`), severity follows the threshold table (`< 1` no alert and no
state change, `[1,3)` Low, `[3,5)` Medium, `[5,10)` High, `≥ 10` Critical),
and a created alert is appended to the engine's list with status
`"ABERTO"` (OPEN) and carries exactly that percentage. -/
theorem create_alert_severity_table (now : Int) (st : List Alert) (dataset issue : Str)
    (affected total : Nat) (details : Details) (p : ℚ)
    (hp : p = if 0 < total then (affected : ℚ) / (total : ℚ) * 100 else 0) :
    (p < 1 → create_alert now st dataset issue affected total details = (none, st)) ∧
    (1 ≤ p → p < 3 →
      (create_alert now st dataset issue affected total details).1.map Alert.severity =
        some .LOW) ∧
    (3 ≤ p → p < 5 →
      (create_alert now st dataset issue affected total details).1.map Alert.severity =
        some .MEDIUM) ∧
    (5 ≤ p → p < 10 →
      (create_alert now st dataset issue affected total details).1.map Alert.severity =
        some .HIGH) ∧
    (10 ≤ p →
      (create_alert now st dataset issue affected total details).1.map Alert.severity =
        some .CRITICAL) ∧
    (∀ a, (create_alert now st dataset issue affected total details).1 = some a →
      a.status = statusAberto ∧ a.percentage = p ∧
      (create_alert now st dataset issue affected total details).2 = st ++ [a]) := by
  subst hp
  refine ⟨fun h => ?_, fun h1 h2 => ?_, fun h1 h2 => ?_, fun h1 h2 => ?_, fun h1 => ?_,
    fun a ha => ?_⟩
  · simp only [create_alert, determine_severity_none h]
  · simp only [create_alert, determine_severity_low h1 h2, Option.map]
    rfl
  · simp only [create_alert, determine_severity_medium h1 h2, Option.map]
    rfl
  · simp only [create_alert, determine_severity_high h1 h2, Option.map]
    rfl
  · simp only [create_alert, determine_severity_critical h1, Option.map]
    rfl
  · cases hds : determine_severity
        (if 0 < total then (affected : ℚ) / (total : ℚ) * 100 else 0) with
    | none =>
      simp only [create_alert, hds] at ha
      exact Option.noConfusion ha
    | some sev =>
      simp only [create_alert, hds] at ha
      exact Option.some.inj ha ▸ ⟨rfl, rfl, by simp only [create_alert, hds]⟩

/-- Witness for C1: 1 affected of 100 is exactly 1 % and yields a Low alert,
10 of 100 is exactly 10 % and yields Critical, and 0 of 100 yields no alert
and leaves the engine unchanged. -/
theorem create_alert_severity_table_witness :
    ((create_alert 0 [] (str "d") (str "i") 1 100 .none).1.map Alert.severity =
      some .LOW) ∧
    ((create_alert 0 [] (str "d") (str "i") 10 100 .none).1.map Alert.severity =
      some .CRITICAL) ∧
    (create_alert 0 [] (str "d") (str "i") 0 100 .none = (none, [])) := by
  refine ⟨?_, ?_, ?_⟩
  · exact (create_alert_severity_table 0 [] (str "d") (str "i") 1 100 .none 1
      (by norm_num)).2.1 (by norm_num) (by norm_num)
  · exact (create_alert_severity_table 0 [] (str "d") (str "i") 10 100 .none 10
      (by norm_num)).2.2.2.2.1 (by norm_num)
  · exact (create_alert_severity_table 0 [] (str "d") (str "i") 0 100 .none 0
      (by norm_num)).1 (by norm_num)

/-! ### Claim C3 -/

/-- C3: in every output of `clean_all`, each cleaned sale references an
existing cleaned customer and an existing cleaned product, and each cleaned
shipment references an existing cleaned sale. -/
theorem clean_all_referential_integrity (current_year now : Int)
    (clientes_df : List Cliente) (produtos_df : List Produto)
    (vendas_df : List Venda) (logistica_df : List Logistica) :
    (∀ s ∈ (clean_all current_year now clientes_df produtos_df vendas_df logistica_df).vendas,
      s.id_cliente ∈
        (clean_all current_year now clientes_df produtos_df vendas_df
          logistica_df).clientes.map (·.id_cliente) ∧
      s.id_produto ∈
        (clean_all current_year now clientes_df produtos_df vendas_df
          logistica_df).produtos.map (·.id_produto)) ∧
    (∀ sh ∈ (clean_all current_year now clientes_df produtos_df vendas_df
        logistica_df).logistica,
      sh.id_venda ∈
        (clean_all current_year now clientes_df produtos_df vendas_df
          logistica_df).vendas.map (·.id_venda)) := by
  constructor
  · intro s hs
    simp only [clean_all] at hs ⊢
    exact clean_vendas_refs now vendas_df (clean_clientes current_year clientes_df)
      (clean_produtos produtos_df) s hs
  · intro sh hsh
    simp only [clean_all] at hsh ⊢
    exact clean_logistica_refs logistica_df _ sh hsh

/-- Witness for C3: a pipeline run over one customer, product, sale and
shipment; the surviving sale references customer 1 and product 1, and the
surviving shipment references sale 1. -/
theorem clean_all_referential_integrity_witness :
    ((1 : Int) ∈ (clean_all 2025 20250101 [clienteW] [produtoW] [vendaW]
        [logisticaW]).clientes.map (·.id_cliente)) ∧
    ((1 : Int) ∈ (clean_all 2025 20250101 [clienteW] [produtoW] [vendaW]
        [logisticaW]).produtos.map (·.id_produto)) ∧
    ((1 : Int) ∈ (clean_all 2025 20250101 [clienteW] [produtoW] [vendaW]
        [logisticaW]).vendas.map (·.id_venda)) := by
  have hvendas : (clean_all 2025 20250101 [clienteW] [produtoW] [vendaW]
      [logisticaW]).vendas = [vendaW] := clean_vendas_vendaW
  have hmem : vendaW ∈ (clean_all 2025 20250101 [clienteW] [produtoW] [vendaW]
      [logisticaW]).vendas := by
    rw [hvendas]
    exact List.mem_singleton.mpr rfl
  have hlg : logisticaW ∈ (clean_all 2025 20250101 [clienteW] [produtoW] [vendaW]
      [logisticaW]).logistica := by
    show logisticaW ∈ clean_logistica [logisticaW]
      (clean_vendas 20250101 [vendaW] (clean_clientes 2025 [clienteW])
        (clean_produtos [produtoW]))
    rw [clean_vendas_vendaW]
    decide
  have h := (clean_all_referential_integrity 2025 20250101 [clienteW] [produtoW]
    [vendaW] [logisticaW]).1 vendaW hmem
  have h2 := (clean_all_referential_integrity 2025 20250101 [clienteW] [produtoW]
    [vendaW] [logisticaW]).2 logisticaW hlg
  exact ⟨h.1, h.2, h2⟩

/-! ### Claim C5 -/

/-- C5: every row of the cleaned sales satisfies
`|total − quantity × unit price| ≤ 0.01`, for every raw sale collection and
any upstream collections. -/
theorem clean_vendas_total_invariant (now : Int) (df : List Venda)
    (df_clientes : List Cliente) (df_produtos : List Produto) :
    ∀ v ∈ clean_vendas now df df_clientes df_produtos,
      |v.valor_total - (v.quantidade : ℚ) * v.valor_unitario| ≤ 1 / 100 :=
  clean_vendas_total_ok now df df_clientes df_produtos

/-- Witness for C5: the consistent sale row survives cleaning and satisfies
the one-cent tolerance. -/
theorem clean_vendas_total_invariant_witness :
    |vendaW.valor_total - (vendaW.quantidade : ℚ) * vendaW.valor_unitario| ≤ 1 / 100 := by
  have hmem : vendaW ∈ clean_vendas 20250101 [vendaW] (clean_clientes 2025 [clienteW])
      (clean_produtos [produtoW]) := by
    rw [clean_vendas_vendaW]
    exact List.mem_singleton.mpr rfl
  exact clean_vendas_total_invariant 20250101 [vendaW] (clean_clientes 2025 [clienteW])
    (clean_produtos [produtoW]) vendaW hmem

/-! ### Claim C2 -/

/-- The sale row of the C2 scenario: quantity 5, unit price 2.00, stored
total 9.00. -/
def vendaC2 : Venda :=
  { id_venda := 1, id_cliente := 1, id_produto := 1, quantidade := 5,
    valor_unitario := 2, valor_total := 9, data_venda := some 20240101,
    status := some (str "Entregue") }

/-- C2, evaluated at the claim's own scenario: cleaning the sale row
`{qty:5, unit_price:2.00, total:9.00}` does correct the total to 10.00, but
the corrections log stays empty — `clean_vendas` (like every other
`clean_*` method) never calls `log_correction`, so no CorrectionRecord is
appended, contradicting the claimed audit behaviour. -/
theorem clean_vendas_no_correction_record :
    (clean_vendas_run [] 20250101 [vendaC2] [clienteW] [produtoW]).1 =
      [{ vendaC2 with valor_total := 10 }] ∧
    (clean_vendas_run [] 20250101 [vendaC2] [clienteW] [produtoW]).2 = [] := by
  have hq : fix_quantidade vendaC2 = vendaC2 := by decide
  have ht : fix_valor_total vendaC2 = { vendaC2 with valor_total := 10 } := by
    unfold fix_valor_total
    rw [if_pos (by simp only [vendaC2]; norm_num)]
    have hcalc : ((vendaC2.quantidade : ℚ)) * vendaC2.valor_unitario = 10 := by
      simp only [vendaC2]
      norm_num
    rw [hcalc]
  have h : (clean_vendas_run [] 20250101 [vendaC2] [clienteW] [produtoW]).1 =
      [fix_status_venda (fix_data_venda 20250101 (fix_valor_total (fix_quantidade vendaC2)))] :=
    rfl
  constructor
  · rw [h, hq, ht]
    decide
  · rfl

/-! ### Claim C4 -/

/-- Counterexample to C4: two product rows share `id_produto = 1` but differ
in price, so they are not fully duplicate rows; `clean_produtos` (which
deduplicates whole rows only) keeps both, and the cleaned collection has a
duplicated identifier. -/
theorem clean_produtos_duplicate_ids :
    ¬ (((clean_produtos [produtoW, { produtoW with preco := 6 }]).map
      (·.id_produto)).Nodup) := by
  decide

/-- C4 as amended: only the cleaned Customer collection is guaranteed
duplicate-free in its identifier (`clean_clientes` deduplicates by
`id_cliente`); Product cleaning drops only fully-identical rows, and Sale
and Shipment cleaning never deduplicate. -/
theorem clean_clientes_unique_ids :
    ∀ (current_year : Int) (df : List Cliente),
      ((clean_clientes current_year df).map (·.id_cliente)).Nodup :=
  fun current_year df => clean_clientes_ids_nodup current_year df

/-! ### Claim C6 -/

/-- First customer row of the C6 scenario: id 1, registered 2023-01-01. -/
def clienteC6a : Cliente :=
  { id_cliente := 1, nome := some (str "Ana"), email := none, telefone := none,
    estado := none, cidade := none, data_cadastro := some 20230101,
    data_nascimento := none }

/-- Second customer row of the C6 scenario: id 1, registered 2024-06-01,
blank name. -/
def clienteC6b : Cliente :=
  { clienteC6a with nome := some (str ""), data_cadastro := some 20240601 }

/-- C6: cleaning the two duplicate customer rows keeps exactly the one with
the later registration date (2024-06-01) and fills its blank name with the
synthesized placeholder — the source's `"Cliente 1"`, which the spec renders
in English as "Customer 1". -/
theorem clean_clientes_dedup_scenario :
    ∀ current_year : Int,
      (clean_clientes current_year [clienteC6a, clienteC6b]).map
        (fun c => (c.id_cliente, c.data_cadastro, c.nome)) =
      [(1, some 20240601, some (str "Cliente 1"))] :=
  fun _ => rfl

/-! ### Claim C7 -/

/-- C7: `escalate_alert` returns exactly the recipients and SLA of the
severity table (Critical → [CDO, Data Owner, Data Steward] / 4 h, High →
[Data Owner, Data Steward] / 24 h, Medium → [Data Steward] / 48 h, Low →
[Data Custodian] / 168 h); in particular the Critical alert created from
15 affected out of 100 escalates to [CDO, Data Owner, Data Steward] with
SLA 4. -/
theorem escalate_alert_table :
    (∀ (now : Int) (a : Alert),
      (a.severity = .CRITICAL →
        (escalate_alert now a).recipients =
          [str "CDO", str "Data Owner", str "Data Steward"] ∧
        (escalate_alert now a).sla_hours = 4) ∧
      (a.severity = .HIGH →
        (escalate_alert now a).recipients = [str "Data Owner", str "Data Steward"] ∧
        (escalate_alert now a).sla_hours = 24) ∧
      (a.severity = .MEDIUM →
        (escalate_alert now a).recipients = [str "Data Steward"] ∧
        (escalate_alert now a).sla_hours = 48) ∧
      (a.severity = .LOW →
        (escalate_alert now a).recipients = [str "Data Custodian"] ∧
        (escalate_alert now a).sla_hours = 168)) ∧
    ((create_alert 0 [] (str "X") (str "Y") 15 100 .none).1.map
        (fun a => ((escalate_alert 0 a).recipients, (escalate_alert 0 a).sla_hours)) =
      some ([str "CDO", str "Data Owner", str "Data Steward"], 4)) := by
  constructor
  · intro now a
    refine ⟨fun h => ?_, fun h => ?_, fun h => ?_, fun h => ?_⟩ <;>
      simp [escalate_alert, h]
  · have hsev : determine_severity
        (if 0 < (100 : Nat) then ((15 : Nat) : ℚ) / ((100 : Nat) : ℚ) * 100 else 0) =
        some .CRITICAL := by
      rw [if_pos (by norm_num)]
      exact determine_severity_critical (by norm_num)
    simp only [create_alert, hsev, Option.map]
    rfl

/-- Witness for C7: escalating the Critical alert built by `Alert.make`
yields SLA 4 and the three-role recipient list. -/
theorem escalate_alert_table_witness :
    (escalate_alert 0 (Alert.make 0 (str "X") (str "Y") .CRITICAL 15 100
      .none)).sla_hours = 4 := by
  have h := (escalate_alert_table.1 0
    (Alert.make 0 (str "X") (str "Y") .CRITICAL 15 100 .none)).1 rfl
  exact h.2

/-! ### Claim C8 -/

/-- A quality-results structure with one failed checkpoint and a 0 % success
rate. -/
def resC8 : Results :=
  { checkpoints := [(str "checkpoint_vendas", { success := false, error := some (str "x") })],
    summary := { total := 1, successful := 0, failed := 1, success_rate := 0 } }

/-- The per-checkpoint Critical alert `analyze_quality_results` creates for
`resC8`. -/
def alertC8a : Alert :=
  Alert.make 0 (datasetName (str "checkpoint_vendas"))
    (str "Checkpoint falhou completamente") .CRITICAL 1 1 (.errorD (str "x"))

/-- The aggregate Critical alert `analyze_quality_results` creates for
`resC8`. -/
def alertC8b : Alert :=
  Alert.make 0 (str "GERAL") (str "Taxa de falha nos checkpoints") .CRITICAL 1 1
    (.summaryD resC8.summary)

theorem analyze_resC8_eval : analyze_quality_results 0 [] resC8 = [alertC8a, alertC8b] := by
  unfold analyze_quality_results
  simp only [resC8, List.foldl_cons, List.foldl_nil]
  rw [if_pos (show (0 : ℚ) < 100 - 0 by norm_num)]
  rw [create_alert_one_one, create_alert_one_one]
  rfl

/-- Counterexample to C8: processing `resC8` escalates two Critical alerts
through `escalate_alert`, yet every alert — both in the engine's list and
inside the produced escalation snapshots — still has the creation status
`"ABERTO"` (OPEN).  `escalate_alert` never writes any status, so the
claimed OPEN → ESCALATED transition does not occur. -/
theorem process_alerts_status_unchanged :
    ((process_alerts 0 [] resC8).2.length = 2) ∧
    ((process_alerts 0 [] resC8).1.map Alert.status = [statusAberto, statusAberto]) ∧
    ((process_alerts 0 [] resC8).2.map (fun e => e.alert.status) =
      [statusAberto, statusAberto]) := by
  have hp1 : (process_alerts 0 [] resC8).1 = [alertC8a, alertC8b] := analyze_resC8_eval
  have hp2 : (process_alerts 0 [] resC8).2 =
      ([alertC8a, alertC8b].filter fun a =>
        decide (a.severity = .CRITICAL ∨ a.severity = .HIGH)).map (escalate_alert 0) := by
    simp only [process_alerts, analyze_resC8_eval]
  refine ⟨?_, ?_, ?_⟩
  · rw [hp2]
    rfl
  · rw [hp1]
    rfl
  · rw [hp2]
    rfl

/-- C8 as amended: every alert is created with status `"ABERTO"` (OPEN) and
no operation of the Alert Engine ever changes any alert's status —
`escalate_alert` only reads the alert, and after a whole `process_alerts`
run every alert in the engine still carries the OPEN status; no other
status value (in particular no ESCALATED value) is ever reached. -/
theorem alert_status_never_changes :
    (∀ (now : Int) (st : List Alert) (dataset issue : Str) (affected total : Nat)
      (details : Details) (a : Alert),
      (create_alert now st dataset issue affected total details).1 = some a →
      a.status = statusAberto) ∧
    (∀ (now : Int) (a : Alert), (escalate_alert now a).alert = a) ∧
    (∀ (now : Int) (st : List Alert) (results : Results),
      (∀ x ∈ st, x.status = statusAberto) →
      ∀ x ∈ (process_alerts now st results).1, x.status = statusAberto) := by
  refine ⟨?_, fun now a => rfl, process_alerts_status_inv⟩
  intro now st dataset issue affected total details a ha
  cases hds : determine_severity
      (if 0 < total then (affected : ℚ) / (total : ℚ) * 100 else 0) with
  | none =>
    simp only [create_alert, hds] at ha
    exact Option.noConfusion ha
  | some sev =>
    simp only [create_alert, hds] at ha
    exact Option.some.inj ha ▸ rfl

/-- Witness for C8's amended statement: after processing `resC8` from an
empty engine, the escalated Critical alert still has status `"ABERTO"`, and
escalating it returns the alert unchanged. -/
theorem alert_status_never_changes_witness :
    alertC8a.status = statusAberto ∧ (escalate_alert 0 alertC8a).alert = alertC8a := by
  constructor
  · refine alert_status_never_changes.2.2 0 [] resC8 (by simp) alertC8a ?_
    have h : (process_alerts 0 [] resC8).1 = [alertC8a, alertC8b] := analyze_resC8_eval
    rw [h]
    exact List.mem_cons_self _ _
  · exact alert_status_never_changes.2.1 0 alertC8a

/-! ### Claim C9 -/

/-- C9: customer cleaning is a fixpoint — applying `clean_clientes` to its
own output returns that output unchanged (and, since no cleaning step ever
writes to the corrections log, the second run records no corrections). -/
theorem clean_clientes_fixpoint :
    ∀ (current_year : Int) (df : List Cliente),
      clean_clientes current_year (clean_clientes current_year df) =
        clean_clientes current_year df := by
  intro current_year df
  rw [clean_clientes_of_nodup
    ((has_dup_eq_false_iff _).mpr (clean_clientes_ids_nodup current_year df))]
  simp only [clean_clientes]
  exact clienteFixes_idem current_year _

/-! ### Claim C10 -/

/-- C10: after product cleaning the active flag is `True` exactly when the
original value's string form lowercases to `"true"`, `False` exactly when it
lowercases to `"false"`, and null (`NaN`) in every other case; and every
cleaned row's flag is the parse of the corresponding raw row's flag. -/
theorem parse_ativo_cases :
    (∀ v : PVal,
      (parse_ativo v = .pbool true ↔ lowerStr (pyStrOf v) = str "true") ∧
      (parse_ativo v = .pbool false ↔ lowerStr (pyStrOf v) = str "false") ∧
      (lowerStr (pyStrOf v) ≠ str "true" → lowerStr (pyStrOf v) ≠ str "false" →
        parse_ativo v = .pnone)) ∧
    (∀ (df : List Produto), ∀ p ∈ clean_produtos df,
      ∃ q ∈ df, p.ativo = parse_ativo q.ativo) := by
  constructor
  · intro v
    by_cases h1 : lowerStr (pyStrOf v) = str "true"
    · simp [parse_ativo, h1]
      decide
    · by_cases h2 : lowerStr (pyStrOf v) = str "false"
      · simp [parse_ativo, h1, h2]
        decide
      · simp [parse_ativo, h1, h2]
  · intro df p hp
    simp only [clean_produtos] at hp
    obtain ⟨p6, hp6, rfl⟩ := List.mem_map.mp hp
    obtain ⟨p5, hp5, rfl⟩ := List.mem_map.mp hp6
    obtain ⟨p4, hp4, rfl⟩ := List.mem_map.mp hp5
    obtain ⟨p3, hp3, rfl⟩ := List.mem_map.mp hp4
    obtain ⟨p2, hp2, rfl⟩ := List.mem_map.mp hp3
    obtain ⟨p1, hp1, rfl⟩ := List.mem_map.mp hp2
    obtain ⟨p0, hp0, rfl⟩ := List.mem_map.mp hp1
    by_cases hdup : has_dup df = true
    · simp only [hdup, if_true] at hp0
      exact ⟨p0, dedup_by_subset id [] df p0 hp0, rfl⟩
    · simp only [Bool.not_eq_true] at hdup
      simp only [hdup, if_false] at hp0
      exact ⟨p0, hp0, rfl⟩

/-- Witness for C10: the textual values `"yes"`, `"1"` and `""` all parse to
null rather than a boolean. -/
theorem parse_ativo_cases_witness :
    parse_ativo (.pstr (str "yes")) = .pnone ∧
    parse_ativo (.pstr (str "1")) = .pnone ∧
    parse_ativo (.pstr (str "")) = .pnone := by
  refine ⟨?_, ?_, ?_⟩
  · exact (parse_ativo_cases.1 _).2.2 (by decide) (by decide)
  · exact (parse_ativo_cases.1 _).2.2 (by decide) (by decide)
  · exact (parse_ativo_cases.1 _).2.2 (by decide) (by decide)

end TechCommerce
